import Mathlib

/-!
Verification development for the nonchalant-hl-bot browser scripts.

The repository holds two JavaScript source files:
  * src/unnamed/part_000            — navigation drawer with a focus trap
  * src/static/js/wallet-connect.js — wallet-connect widget plus a
    server-sent-events monitoring table

This file gives a shallow embedding of the event handlers those scripts
define and proves the behavioural properties stated for them.  DOM
elements are abstracted to identifiers, network calls to explicit
success/failure oracles, and module-level mutable variables to fields of
explicit state records that the embedded handlers thread through.
-/

/-! ## NavDrawer (src/unnamed/part_000)

The drawer script keeps one module variable `lastActiveElement` and the
DOM state of the drawer element (`drawer.hidden`), the body class
`is-nav-open`, the `aria-expanded` attribute of the toggle buttons, the
installed document listeners and the focused element.  `DrawerState`
collects exactly those observables.  Elements are abstracted to `Nat`
identifiers; every modelled element is focusable (the script only guards
`typeof lastActiveElement.focus === "function"`, which holds for DOM
elements). -/

/-- A DOM element, abstracted to an identifier. -/
abbrev Elem := Nat

/-- Observable state touched by `openDrawer` / `closeDrawer`:
`hidden` is `drawer.hidden`, `lastActive` the module variable
`lastActiveElement`, `bodyNavOpen` the body class `is-nav-open`,
`ariaExpanded` the attribute shared by the toggle buttons, `listeners` whether
the document keydown/click listeners are installed, `focused` the
active element of the document. -/
structure DrawerState where
  hidden : Bool
  lastActive : Option Elem
  bodyNavOpen : Bool
  ariaExpanded : Bool
  listeners : Bool
  focused : Option Elem
deriving DecidableEq, Repr

/-- Environment read by `openDrawer` at call time: `document.activeElement`
and the result of `getFocusable()` (the focusable descendants of the drawer,
recomputed at the call). -/
structure DrawerEnv where
  activeElement : Option Elem
  focusable : List Elem
deriving DecidableEq, Repr

/-- `openDrawer` from src/unnamed/part_000 lines 29-41: early return when the
drawer is not hidden; otherwise capture the active element, reveal the
drawer, set the body class and aria attributes, focus the first focusable
descendant when there is one, and install the document listeners. -/
def openDrawer (env : DrawerEnv) (s : DrawerState) : DrawerState :=
  if s.hidden = false then s
  else
    { hidden := false
      lastActive := env.activeElement
      bodyNavOpen := true
      ariaExpanded := true
      listeners := true
      focused :=
        match env.focusable with
        | [] => s.focused
        | f :: _ => some f }

/-- `closeDrawer` from src/unnamed/part_000 lines 43-53: early return when the
drawer is already hidden; otherwise hide it, clear the body class and aria
attributes, remove the document listeners and restore focus to the captured
element when one was captured. -/
def closeDrawer (s : DrawerState) : DrawerState :=
  if s.hidden = true then s
  else
    { s with
      hidden := true
      bodyNavOpen := false
      ariaExpanded := false
      listeners := false
      focused :=
        match s.lastActive with
        | some e => some e
        | none => s.focused }

/-- One call in a sequence of drawer operations: an `openDrawer` call with
the environment it observes, or a `closeDrawer` call. -/
inductive DrawerOp where
  | openCall (env : DrawerEnv)
  | closeCall
deriving DecidableEq, Repr

/-- Apply one drawer call to the drawer state. -/
def applyDrawerOp (s : DrawerState) (op : DrawerOp) : DrawerState :=
  match op with
  | .openCall env => openDrawer env s
  | .closeCall => closeDrawer s

/-- Apply a finite sequence of drawer calls in order. -/
def applyDrawerOps (s : DrawerState) (ops : List DrawerOp) : DrawerState :=
  ops.foldl applyDrawerOp s

/-- The hidden/shown state a call implies: an open call implies shown
(`hidden = false`), a close call implies hidden. -/
def impliedHidden : DrawerOp → Bool
  | .openCall _ => false
  | .closeCall => true

/-- Key of a keydown event, restricted to the cases the drawer handler
distinguishes. -/
inductive Key where
  | escape
  | tab
  | other
deriving DecidableEq, Repr

/-- A keydown event together with the DOM facts `handleKeydown` reads:
`focusable` is the result of `getFocusable()` recomputed at this
keystroke, `active` is `document.activeElement`. -/
structure KeydownEnv where
  key : Key
  shift : Bool
  focusable : List Elem
  active : Elem
deriving DecidableEq, Repr

/-- Outcome of `handleKeydown`: Escape closes the drawer; a Tab with an
empty focusable set is swallowed (`preventDefault`, no focus change); trap
cycling prevents the default and focuses a target element; anything else
is passed through to the browser default. -/
inductive KeyAction where
  | closedDrawer
  | preventedNoMove
  | focusMoved (target : Elem)
  | passthrough
deriving DecidableEq, Repr

/-- `handleKeydown` from src/unnamed/part_000 lines 55-81: Escape prevents
default and closes the drawer; non-Tab keys return; with an empty freshly
computed focusable set the event is only prevented; Tab on the last
focusable element wraps to the first, Shift+Tab on the first wraps to the
last; otherwise the event is left to the browser default. -/
def handleKeydown (e : KeydownEnv) : KeyAction :=
  if e.key = Key.escape then KeyAction.closedDrawer
  else if e.key ≠ Key.tab then KeyAction.passthrough
  else
    match e.focusable with
    | [] => KeyAction.preventedNoMove
    | f :: rest =>
      if e.shift = false ∧ e.active = (f :: rest).getLast (List.cons_ne_nil f rest) then
        KeyAction.focusMoved f
      else if e.shift = true ∧ e.active = f then
        KeyAction.focusMoved ((f :: rest).getLast (List.cons_ne_nil f rest))
      else KeyAction.passthrough

/-! ## WalletConnect (src/static/js/wallet-connect.js)

The wallet module keeps the module variables `provider`, `signer`,
`walletAddress` and `saving`, and renders into a connect button and an
address target element.  Provider and signer handles are opaque to the
claims, so they are modelled as `Option Unit`.  The UI model assumes the
two DOM targets are present (`present = true`); when `present = false`
both render functions are the no-op the script performs when
`document.querySelector` misses. -/

/-- Module-level wallet state: `saving` is the single-flight guard of
`persistWallet`; `walletAddress`, `provider` and `signer` are the module
variables of the same names (handles opaque). -/
structure WalletState where
  saving : Bool
  walletAddress : Option String
  provider : Option Unit
  signer : Option Unit
deriving DecidableEq, Repr

/-- Which click handler is bound to the connect button.  The script swaps
`handleConnectClick` and `handleDisconnectClick` on every render. -/
inductive BoundHandler where
  | connectH
  | disconnectH
deriving DecidableEq, Repr

/-- Observable UI state of the widget: button text, whether the button
carries the primary (vs secondary) class, the bound click handler, the
`data-connected-address` attribute, the address target text and its
`data-state` attribute.  `present` records whether both DOM targets were
found; when it is false the render functions are no-ops. -/
structure WalletUi where
  present : Bool
  buttonText : String
  buttonPrimary : Bool
  handler : BoundHandler
  connectedAddressAttr : Option String
  addressText : String
  addressState : String
deriving DecidableEq, Repr

/-- The three source bytes `C3 A2 E2 82 AC C2 A6` on line 191 of
src/static/js/wallet-connect.js decode (as UTF-8) to the characters
U+00E2, U+20AC, U+00A6 — the mojibake produced by double-encoding the
horizontal ellipsis U+2026.  This is the literal separator the template
string of `shortAddress` inserts. -/
def walletSeparator : String :=
  String.mk [Char.ofNat 0xE2, Char.ofNat 0x20AC, Char.ofNat 0xA6]

/-- The single horizontal ellipsis character U+2026, as written in the
specification (and in `renderRow` of the monitoring module). -/
def specEllipsis : String :=
  String.mk [Char.ofNat 0x2026]

/-- The last `n` characters of a string, as the JavaScript `slice(-n)`
computes for a string of length at least `n`. -/
def takeLast (s : String) (n : Nat) : String :=
  s.drop (s.length - n)

/-- `shortAddress` from src/static/js/wallet-connect.js lines 189-192: a
missing address yields the empty string, an address shorter than 10
characters is returned verbatim (for the empty string the JavaScript
the JavaScript fallback to the empty string also yields the string itself), otherwise the first 6
characters, the literal separator of line 191 and the last 4 characters
are concatenated. -/
def shortAddress (address : Option String) : String :=
  match address with
  | none => ""
  | some a =>
    if a.length < 10 then a
    else a.take 6 ++ walletSeparator ++ takeLast a 4

/-- `renderConnectedState` from lines 134-148: no-op when either DOM
target is missing; otherwise set the button text to Disconnect, swap the
button class to secondary, bind the disconnect handler, record the
connected address attribute, and show the shortened address with state
connected. -/
def renderConnectedState (walletAddress : Option String) (ui : WalletUi) : WalletUi :=
  if ui.present = false then ui
  else
    { ui with
      buttonText := "Disconnect"
      buttonPrimary := false
      handler := BoundHandler.disconnectH
      connectedAddressAttr := walletAddress
      addressText := shortAddress walletAddress
      addressState := "connected" }

/-- `renderDisconnectedState` from lines 150-164: no-op when either DOM
target is missing; otherwise set the button text to the given label
(default Connect wallet), swap the button class to primary, bind the
connect handler, delete the connected address attribute, and show the
Not connected placeholder with state disconnected. -/
def renderDisconnectedState (label : String) (ui : WalletUi) : WalletUi :=
  if ui.present = false then ui
  else
    { ui with
      buttonText := label
      buttonPrimary := true
      handler := BoundHandler.connectH
      connectedAddressAttr := none
      addressText := "Not connected"
      addressState := "disconnected" }

/-- Observable events of the wallet flows: completion of the POST to
/authz/session (success or transport failure), its logged error, the
DELETE of `clearWallet`, and invocations of the two render functions. -/
inductive WEvent where
  | postOk
  | postFailed
  | logPersistError
  | deleteIssued
  | renderConnected
  | renderDisconnected
deriving DecidableEq, Repr

/-- `persistWallet` from lines 108-122: when `saving` is already set the
call returns at once — no POST, no state change, nothing queued.
Otherwise it sets `saving`, performs the POST inside a try/catch that
logs a transport failure, and the `finally` block resets `saving` to
false on both outcomes.  `fetchOk` is the transport oracle for this call. -/
def persistWallet (st : WalletState) (fetchOk : Bool) : WalletState × List WEvent :=
  if st.saving = true then (st, [])
  else
    let st1 := { st with saving := true }
    let evs :=
      match (if fetchOk then Except.ok () else Except.error ()) with
      | Except.ok _ => [WEvent.postOk]
      | Except.error _ => [WEvent.postFailed, WEvent.logPersistError]
    let st2 := { st1 with saving := false }
    (st2, evs)

/-- `clearWallet` from lines 124-132: issue the DELETE; a transport
failure is caught and logged; either way the call completes. -/
def clearWallet (deleteOk : Bool) : List WEvent :=
  if deleteOk then [WEvent.deleteIssued]
  else [WEvent.deleteIssued]

/-- `handleDisconnectClick` from lines 88-95: clear the three module
variables, await `clearWallet` (whose failure is swallowed), then render
the disconnected state with the default label. -/
def handleDisconnectClick (st : WalletState) (ui : WalletUi) (deleteOk : Bool) :
    WalletState × WalletUi × List WEvent :=
  let st1 := { st with walletAddress := none, provider := none, signer := none }
  let evs := clearWallet deleteOk
  (st1, renderDisconnectedState "Connect wallet" ui, evs ++ [WEvent.renderDisconnected])

/-- Environment oracles of one `handleConnectClick` run: whether a modal
with `openModal` exists, whether `openModal` throws, whether the modal
yields a wallet provider, whether `window.ethereum` is injected, whether
`eth_requestAccounts` throws, the combined outcome of
`getSigner`/`getAddress`, and the transport oracle of the persist POST. -/
structure ConnectEnv where
  modalPresent : Bool
  modalOpenThrows : Bool
  modalGivesProvider : Bool
  injectedPresent : Bool
  requestThrows : Bool
  addressResult : Except Unit String
  persistFetchOk : Bool
deriving Repr

/-- The injected-provider fallback inside `handleConnectClick` lines
68-75: throw when no provider is injected, throw when the account request
rejects, otherwise a provider is obtained. -/
def injectedPath (env : ConnectEnv) : Except Unit Unit :=
  if env.injectedPresent = false then Except.error ()
  else if env.requestThrows then Except.error ()
  else Except.ok ()

/-- The try block of `handleConnectClick` lines 59-79 up to obtaining the
address: the modal path (lines 60-66) runs when a modal exists, its
thrown errors propagate, and when it yields no provider the injected
fallback runs; then `getSigner`/`getAddress` produce the address or
throw. -/
def tryConnect (env : ConnectEnv) : Except Unit String := do
  if env.modalPresent then
    if env.modalOpenThrows then throw ()
    else if env.modalGivesProvider then pure ()
    else injectedPath env
  else injectedPath env
  env.addressResult

/-- `handleConnectClick` from lines 56-86: on any throw in the try block
the catch renders the disconnected state with label Connect wallet; on
success the module variables are set, `persistWallet` is awaited (its
own failures swallowed), and only then is `renderConnectedState`
invoked.  Returns the final module state, the final UI and the ordered
event trace of the run. -/
def handleConnectClick (env : ConnectEnv) (st : WalletState) (ui : WalletUi) :
    WalletState × WalletUi × List WEvent :=
  match tryConnect env with
  | Except.error _ =>
    (st, renderDisconnectedState "Connect wallet" ui, [WEvent.renderDisconnected])
  | Except.ok addr =>
    let st1 := { st with walletAddress := some addr, provider := some (), signer := some () }
    let r := persistWallet st1 env.persistFetchOk
    (r.1, renderConnectedState r.1.walletAddress ui, r.2 ++ [WEvent.renderConnected])

/-- Body of the session fetch of `hydrateFromServer`: the parsed JSON of
GET /authz/session, `none` when the fetch or the JSON parse threw.
`data.address` is optional and the script additionally requires it to be
truthy (non-empty). -/
structure SessionData where
  address : String
deriving DecidableEq, Repr

/-- Parsed envelope of GET /authz/session. -/
structure SessionEnvelope where
  ok : Bool
  data : Option SessionData
deriving DecidableEq, Repr

/-- The truthiness test `body?.ok && body.data?.address` of line 43. -/
def sessionHasAddress (body : SessionEnvelope) : Bool :=
  body.ok && (match body.data with
    | some d => d.address ≠ ""
    | none => false)

/-- `hydrateFromServer` from lines 39-54: on a successful fetch whose body
passes the truthiness test, store the address, render the connected state
and set the connected-address attribute on the button; otherwise (body
fails the test, or fetch/parse threw into the catch) render the
disconnected state with the default label. -/
def hydrateFromServer (resp : Option SessionEnvelope) (st : WalletState) (ui : WalletUi) :
    WalletState × WalletUi :=
  match resp with
  | some body =>
    if sessionHasAddress body then
      let addr := (body.data.map SessionData.address).getD ""
      let st1 := { st with walletAddress := some addr }
      let ui1 := renderConnectedState st1.walletAddress ui
      let ui2 := if ui.present then { ui1 with connectedAddressAttr := st1.walletAddress } else ui1
      (st1, ui2)
    else
      (st, renderDisconnectedState "Connect wallet" ui)
  | none =>
    (st, renderDisconnectedState "Connect wallet" ui)

/-- Interleaving model of persist calls for the single-flight guard:
`saving` is the module flag, `inFlightPosts` counts POSTs started and not
yet settled.  A `callPersist` step is a `persistWallet` invocation
reaching its guard; a `fetchSettles` step is the await of an in-flight
POST resuming (running the `finally`). -/
structure PersistSystem where
  saving : Bool
  inFlightPosts : Nat
deriving DecidableEq, Repr

/-- Events of the persist interleaving model. -/
inductive PersistEvent where
  | callPersist
  | fetchSettles
deriving DecidableEq, Repr

/-- One step of the persist interleaving model: a call finding `saving`
set returns at once (no POST started); a call finding it clear sets it
and starts one POST; a settling fetch runs the `finally`, clearing
`saving` and retiring its POST. -/
def persistStep (s : PersistSystem) (e : PersistEvent) : PersistSystem :=
  match e with
  | .callPersist =>
    if s.saving then s
    else { saving := true, inFlightPosts := s.inFlightPosts + 1 }
  | .fetchSettles =>
    if s.inFlightPosts = 0 then s
    else { saving := false, inFlightPosts := s.inFlightPosts - 1 }

/-- Initial persist-system state: the module initialises `saving = false`
and no POST is in flight. -/
def persistInit : PersistSystem := { saving := false, inFlightPosts := 0 }

/-- Run the persist interleaving model from the initial state. -/
def persistRun (evs : List PersistEvent) : PersistSystem :=
  evs.foldl persistStep persistInit

/-! ## MonitorStream (src/static/js/wallet-connect.js, second module)

The monitoring module upserts rows of a table body keyed by the string
`run-` ++ run_id.  A table row is either a rendered snapshot row or the
designated empty-state placeholder row (the row whose cell carries the
class `cell-empty`).  Cell text formatting (`formatNum`, which is
locale-dependent) is not modelled; a rendered row carries its id and the
snapshot it renders. -/

/-- A position snapshot as carried by a stream message. -/
structure Snapshot where
  run_id : String
  market : String
  status : String
  position_notional : Int
  entry_price : Int
  mark_price : Int
  unrealized_pnl : Int
  realized_pnl : Int
  timestamp : String
deriving DecidableEq, Repr

/-- A rendered table row: the DOM id `run-` ++ run_id and the snapshot
whose fields its cells show. -/
structure RenderedRow where
  id : String
  snapshot : Snapshot
deriving DecidableEq, Repr

/-- `renderRow` from lines 209-225, restricted to the row identity and the
snapshot the cells are rendered from (cell text formatting is
locale-dependent and not claimed). -/
def renderRow (s : Snapshot) : RenderedRow :=
  { id := "run-" ++ s.run_id, snapshot := s }

/-- A row of the monitoring table body: a rendered snapshot row, or the
empty-state placeholder row (the row containing a `.cell-empty` cell). -/
inductive Row where
  | snap (r : RenderedRow)
  | placeholder
deriving DecidableEq, Repr

/-- The monitoring table body: its rows in document order. -/
structure Table where
  rows : List Row
deriving DecidableEq, Repr

/-- Whether a row is the element `document.getElementById` finds for the
given id (placeholder rows carry no `run-` id). -/
def rowHasId (key : String) : Row → Bool
  | .snap r => r.id == key
  | .placeholder => false

/-- Whether a row is the empty-state placeholder. -/
def isPlaceholder : Row → Bool
  | .snap _ => false
  | .placeholder => true

/-- Replace the first row satisfying the predicate (the single element
`getElementById` returns, swapped in place by `replaceWith`). -/
def replaceFirst (p : Row → Bool) (new : Row) : List Row → List Row
  | [] => []
  | r :: rs => if p r then new :: rs else r :: replaceFirst p new rs

/-- Remove the parent row of the first `.cell-empty` cell
(`tbody.querySelector` returns the first match in document order). -/
def removeFirstPlaceholder : List Row → List Row
  | [] => []
  | r :: rs => if isPlaceholder r then rs else r :: removeFirstPlaceholder rs

/-- `upsertRow` from lines 227-240 (given the table body exists; when
`document.getElementById` misses the function returns unchanged, which
the claims do not exercise): render the snapshot; when a row with the id
`run-` ++ run_id exists, replace it in place; otherwise remove the
empty-state placeholder row if present and append the new row. -/
def upsertRow (s : Snapshot) (t : Table) : Table :=
  let key := "run-" ++ s.run_id
  let row := Row.snap (renderRow s)
  if t.rows.any (rowHasId key) then
    { rows := replaceFirst (rowHasId key) row t.rows }
  else
    { rows := removeFirstPlaceholder t.rows ++ [row] }

/-- Outcome of `JSON.parse` on one stream message followed by the
truthiness test `payload && payload.ok && payload.data` of line 248:
`parseError` when `JSON.parse` threw (caught and logged), `nonObject`
when it produced a falsy or field-less value, otherwise the envelope
fields. -/
inductive StreamParse where
  | parseError
  | nonObject
  | envelope (ok : Bool) (data : Option Snapshot)
deriving DecidableEq, Repr

/-- The `onmessage` handler body of `connectSSE` lines 245-254: upsert
only when the message parsed to an envelope with `ok` truthy and a data
payload; in every other case the table is untouched. -/
def handleStreamMessage (p : StreamParse) (t : Table) : Table :=
  match p with
  | .parseError => t
  | .nonObject => t
  | .envelope ok data =>
    if ok then
      match data with
      | some s => upsertRow s t
      | none => t
    else t

/-- State of the stream connection loop: whether an EventSource is open,
the delay of the pending reconnect timer if one is scheduled, and the
log of every reconnect delay scheduled so far. -/
structure SSEState where
  connOpen : Bool
  pending : Option Nat
  scheduled : List Nat
deriving DecidableEq, Repr

/-- External events driving the stream loop: an error on the open
connection, or the pending reconnect timer firing. -/
inductive SSEEvent where
  | errorEvt
  | timerFires
deriving DecidableEq, Repr

/-- The `onerror` handler and the scheduled `connectSSE` of lines 255-259:
an error on the open connection closes it and schedules exactly one
reconnect after 1500 ms — unconditionally, with no attempt counter, so
the delay never grows and no retry cap exists; the timer firing runs
`connectSSE`, opening a fresh connection. -/
def sseStep (s : SSEState) (e : SSEEvent) : SSEState :=
  match e with
  | .errorEvt =>
    if s.connOpen then
      { connOpen := false, pending := some 1500, scheduled := s.scheduled ++ [1500] }
    else s
  | .timerFires =>
    match s.pending with
    | some _ => { s with pending := none, connOpen := true }
    | none => s

/-- Startup state: `connectSSE` has opened the first connection and no
timer is pending. -/
def sseInit : SSEState := { connOpen := true, pending := none, scheduled := [] }

/-- Run the stream loop from startup over a finite event sequence. -/
def sseRun (evs : List SSEEvent) : SSEState :=
  evs.foldl sseStep sseInit

/-! ## Concrete inputs used by witnesses and counterexamples -/

/-- Module state right after load: nothing connected, guard clear. -/
def freshWallet : WalletState :=
  { saving := false, walletAddress := none, provider := none, signer := none }

/-- Widget UI in the initial disconnected rendering, DOM targets found. -/
def disconnectedUi : WalletUi :=
  { present := true, buttonText := "Connect wallet", buttonPrimary := true
    handler := BoundHandler.connectH, connectedAddressAttr := none
    addressText := "Not connected", addressState := "disconnected" }

/-- Connected module state used to exercise the disconnect flow. -/
def connectedWallet : WalletState :=
  { saving := false, walletAddress := some "0xABCDEF1234567890"
    provider := some (), signer := some () }

/-- Widget UI in the connected rendering, DOM targets found. -/
def connectedUi : WalletUi :=
  { present := true, buttonText := "Disconnect", buttonPrimary := false
    handler := BoundHandler.disconnectH
    connectedAddressAttr := some "0xABCDEF1234567890"
    addressText := shortAddress (some "0xABCDEF1234567890")
    addressState := "connected" }

/-- Connect-flow environment: injected provider works, the persist POST
fails at the transport. -/
def failingPersistEnv : ConnectEnv :=
  { modalPresent := false, modalOpenThrows := false, modalGivesProvider := false
    injectedPresent := true, requestThrows := false
    addressResult := Except.ok "0xABCDEF1234567890", persistFetchOk := false }

/-- Connect-flow environment: injected provider works, the persist POST
succeeds. -/
def okPersistEnv : ConnectEnv :=
  { modalPresent := false, modalOpenThrows := false, modalGivesProvider := false
    injectedPresent := true, requestThrows := false
    addressResult := Except.ok "0xABCDEF1234567890", persistFetchOk := true }

/-- First snapshot of run r1. -/
def snapA : Snapshot :=
  { run_id := "r1", market := "BTC", status := "open", position_notional := 100
    entry_price := 50000, mark_price := 50500, unrealized_pnl := 5
    realized_pnl := 2, timestamp := "t1" }

/-- Second snapshot of run r1, every field changed. -/
def snapB : Snapshot :=
  { run_id := "r1", market := "BTC", status := "closed", position_notional := 0
    entry_price := 50000, mark_price := 51000, unrealized_pnl := 0
    realized_pnl := 7, timestamp := "t2" }

/-- Table holding only the empty-state placeholder row. -/
def placeholderTable : Table := { rows := [Row.placeholder] }

/-! ## Helper lemmas -/

theorem openDrawer_hidden (env : DrawerEnv) (s : DrawerState) :
    (openDrawer env s).hidden = false := by
  unfold openDrawer
  split
  · next h => exact h
  · rfl

theorem closeDrawer_hidden (s : DrawerState) : (closeDrawer s).hidden = true := by
  unfold closeDrawer
  split
  · next h => exact h
  · rfl

theorem openDrawer_eq_of_not_hidden (env : DrawerEnv) {s : DrawerState}
    (h : s.hidden = false) : openDrawer env s = s := by
  simp [openDrawer, h]

theorem closeDrawer_eq_of_hidden {s : DrawerState} (h : s.hidden = true) :
    closeDrawer s = s := by
  simp [closeDrawer, h]

theorem sseStep_preserves_scheduled (s : SSEState) (e : SSEEvent)
    (h : ∀ d ∈ s.scheduled, d = 1500) : ∀ d ∈ (sseStep s e).scheduled, d = 1500 := by
  cases e with
  | errorEvt =>
    intro d hd
    unfold sseStep at hd
    by_cases hc : s.connOpen = true
    · rw [if_pos hc] at hd
      rcases List.mem_append.mp hd with h1 | h2
      · exact h d h1
      · simpa using h2
    · rw [if_neg hc] at hd
      exact h d hd
  | timerFires =>
    intro d hd
    unfold sseStep at hd
    cases hp : s.pending <;> rw [hp] at hd <;> exact h d hd

theorem sseRun_scheduled_go (evs : List SSEEvent) :
    ∀ s : SSEState, (∀ d ∈ s.scheduled, d = 1500) →
      ∀ d ∈ (evs.foldl sseStep s).scheduled, d = 1500 := by
  induction evs with
  | nil => intro s h; simpa using h
  | cons e evs ih => intro s h; exact ih _ (sseStep_preserves_scheduled s e h)

theorem persistStep_invariant (s : PersistSystem) (e : PersistEvent)
    (h : s.inFlightPosts = if s.saving then 1 else 0) :
    (persistStep s e).inFlightPosts = if (persistStep s e).saving then 1 else 0 := by
  cases e with
  | callPersist =>
    by_cases hs : s.saving
    · simpa [persistStep, hs] using h
    · simp [persistStep, hs] at h ⊢
      omega
  | fetchSettles =>
    by_cases hz : s.inFlightPosts = 0
    · simpa [persistStep, hz] using h
    · by_cases hs : s.saving
      · simp [persistStep, hz, hs] at h ⊢
        omega
      · simp [hs] at h
        exact absurd h hz

theorem persistRun_invariant (evs : List PersistEvent) :
    ∀ s : PersistSystem, s.inFlightPosts = (if s.saving then 1 else 0) →
      (evs.foldl persistStep s).inFlightPosts =
        if (evs.foldl persistStep s).saving then 1 else 0 := by
  induction evs with
  | nil => intro s h; simpa using h
  | cons e evs ih => intro s h; exact ih _ (persistStep_invariant s e h)

theorem persistWallet_trace_shapes (st : WalletState) (fetchOk : Bool) :
    (persistWallet st fetchOk).2 = [] ∨ (persistWallet st fetchOk).2 = [WEvent.postOk] ∨
      (persistWallet st fetchOk).2 = [WEvent.postFailed, WEvent.logPersistError] := by
  unfold persistWallet
  split
  · left; rfl
  · cases fetchOk
    · right; right; rfl
    · right; left; rfl

theorem handleConnectClick_error_trace (env : ConnectEnv) (st : WalletState) (ui : WalletUi)
    (e : Unit) (htc : tryConnect env = Except.error e) :
    (handleConnectClick env st ui).2.2 = [WEvent.renderDisconnected] := by
  unfold handleConnectClick
  rw [htc]

theorem handleConnectClick_ok_trace (env : ConnectEnv) (st : WalletState) (ui : WalletUi)
    (addr : String) (htc : tryConnect env = Except.ok addr) :
    (handleConnectClick env st ui).2.2 =
      (persistWallet
        { st with walletAddress := some addr, provider := some (), signer := some () }
        env.persistFetchOk).2 ++ [WEvent.renderConnected] := by
  unfold handleConnectClick
  rw [htc]

theorem rowHasId_renderRow (s : Snapshot) :
    rowHasId ("run-" ++ s.run_id) (Row.snap (renderRow s)) = true := by
  simp [rowHasId, renderRow]

theorem countP_removeFirstPlaceholder (key : String) (l : List Row) :
    (removeFirstPlaceholder l).countP (rowHasId key) = l.countP (rowHasId key) := by
  induction l with
  | nil => rfl
  | cons r rs ih =>
    cases r with
    | snap rr =>
      simp [removeFirstPlaceholder, isPlaceholder, List.countP_cons, ih]
    | placeholder =>
      simp [removeFirstPlaceholder, isPlaceholder, List.countP_cons, rowHasId]

theorem countP_replaceFirst (p : Row → Bool) (new : Row) (hnew : p new = true)
    (l : List Row) : (replaceFirst p new l).countP p = l.countP p := by
  induction l with
  | nil => rfl
  | cons r rs ih =>
    by_cases hr : p r
    · simp [replaceFirst, hr, List.countP_cons, hnew]
    · simp [replaceFirst, hr, List.countP_cons, ih]

theorem filter_eq_nil_of_countP_eq_zero (p : Row → Bool) (l : List Row)
    (h : l.countP p = 0) : l.filter p = [] := by
  rw [List.countP_eq_zero] at h
  simpa using h

theorem filter_replaceFirst (p : Row → Bool) (new : Row) (hnew : p new = true)
    (l : List Row) (h : l.countP p = 1) : (replaceFirst p new l).filter p = [new] := by
  induction l with
  | nil =>
    rw [List.countP_nil] at h
    exact absurd h (by decide)
  | cons r rs ih =>
    rw [List.countP_cons] at h
    by_cases hr : p r
    · rw [if_pos hr] at h
      have hrs : rs.countP p = 0 := by omega
      simp [replaceFirst, hr, List.filter_cons, hnew,
        filter_eq_nil_of_countP_eq_zero p rs hrs]
    · rw [if_neg hr] at h
      have hrs : rs.countP p = 1 := by omega
      simp [replaceFirst, hr, List.filter_cons, ih hrs]

theorem any_of_countP_pos (p : Row → Bool) (l : List Row) (h : 0 < l.countP p) :
    l.any p = true := by
  by_contra hc
  have hz : l.countP p = 0 := by
    rw [List.countP_eq_zero]
    intro a ha hpa
    exact hc (List.any_eq_true.mpr ⟨a, ha, hpa⟩)
  omega

theorem upsertRow_not_present (s : Snapshot) (t : Table)
    (h : t.rows.countP (rowHasId ("run-" ++ s.run_id)) = 0) :
    (upsertRow s t).rows = removeFirstPlaceholder t.rows ++ [Row.snap (renderRow s)] := by
  have hany : t.rows.any (rowHasId ("run-" ++ s.run_id)) = false := by
    rw [List.any_eq_false]
    intro x hx
    have := List.countP_eq_zero.mp h x hx
    simpa using this
  unfold upsertRow
  simp [hany]

theorem upsertRow_present (s : Snapshot) (t : Table)
    (h : t.rows.any (rowHasId ("run-" ++ s.run_id)) = true) :
    (upsertRow s t).rows =
      replaceFirst (rowHasId ("run-" ++ s.run_id)) (Row.snap (renderRow s)) t.rows := by
  unfold upsertRow
  simp [h]

theorem upsertRow_count_one (s : Snapshot) (t : Table)
    (h : t.rows.countP (rowHasId ("run-" ++ s.run_id)) = 0) :
    (upsertRow s t).rows.countP (rowHasId ("run-" ++ s.run_id)) = 1 := by
  rw [upsertRow_not_present s t h, List.countP_append, countP_removeFirstPlaceholder, h]
  simp [List.countP_cons, rowHasId_renderRow]

theorem countP_cons_placeholder (rs : List Row) :
    (Row.placeholder :: rs).countP isPlaceholder = rs.countP isPlaceholder + 1 := by
  simp [List.countP_cons, isPlaceholder]

theorem countP_cons_snap (rr : RenderedRow) (rs : List Row) :
    (Row.snap rr :: rs).countP isPlaceholder = rs.countP isPlaceholder := by
  simp [List.countP_cons, isPlaceholder]

theorem countP_placeholder_removeFirst (l : List Row)
    (h : l.countP isPlaceholder ≤ 1) :
    (removeFirstPlaceholder l).countP isPlaceholder = 0 := by
  induction l with
  | nil => rfl
  | cons r rs ih =>
    cases r with
    | placeholder =>
      rw [countP_cons_placeholder] at h
      have hz : rs.countP isPlaceholder = 0 := by omega
      simpa [removeFirstPlaceholder, isPlaceholder] using hz
    | snap rr =>
      rw [countP_cons_snap] at h
      have hstep : removeFirstPlaceholder (Row.snap rr :: rs) =
          Row.snap rr :: removeFirstPlaceholder rs := rfl
      rw [hstep, countP_cons_snap]
      exact ih h

/-! ## Claim theorems -/

/-- Claim C7: for every finite sequence of openDrawer/closeDrawer calls the
hidden/shown state of the drawer afterwards equals the state implied by the
last call, and both calls are idempotent — open is a no-op on an open
drawer and close is a no-op on a closed drawer. -/
theorem drawer_last_call_wins_and_idempotent :
    (∀ (s : DrawerState) (ops : List DrawerOp) (op : DrawerOp),
      (applyDrawerOps s (ops ++ [op])).hidden = impliedHidden op)
    ∧ (∀ (env env2 : DrawerEnv) (s : DrawerState),
      openDrawer env2 (openDrawer env s) = openDrawer env s)
    ∧ (∀ s : DrawerState, closeDrawer (closeDrawer s) = closeDrawer s) := by
  refine ⟨?_, ?_, ?_⟩
  · intro s ops op
    unfold applyDrawerOps
    rw [List.foldl_append]
    cases op with
    | openCall env => exact openDrawer_hidden env _
    | closeCall => exact closeDrawer_hidden _
  · intro env env2 s
    exact openDrawer_eq_of_not_hidden env2 (openDrawer_hidden env s)
  · intro s
    exact closeDrawer_eq_of_hidden (closeDrawer_hidden s)

/-- Claim C6: whenever the focus trap of `handleKeydown` moves focus on a
Tab or Shift+Tab keystroke, the element it focuses lies in the freshly
computed focusable set of the drawer; trap cycling never targets an
element outside that set. -/
theorem handleKeydown_trap_stays_in_focusable :
    ∀ (e : KeydownEnv) (t : Elem),
      handleKeydown e = KeyAction.focusMoved t → t ∈ e.focusable := by
  intro e t h
  unfold handleKeydown at h
  split at h
  · exact absurd h (by simp)
  · split at h
    · exact absurd h (by simp)
    · split at h
      · exact absurd h (by simp)
      next f rest heq =>
        rw [heq]
        split at h
        · cases h
          exact List.mem_cons_self t rest
        · split at h
          · cases h
            exact List.getLast_mem (List.cons_ne_nil f rest)
          · exact absurd h (by simp)

/-- Claim C6 witness: with focusable set [7, 8], Tab pressed while element
8 (the last) is active, the trap moves focus to 7, which is in the set. -/
theorem handleKeydown_trap_stays_in_focusable_witness :
    (7 : Elem) ∈
      ({ key := Key.tab, shift := false, focusable := [7, 8], active := 8 } :
        KeydownEnv).focusable :=
  handleKeydown_trap_stays_in_focusable
    { key := Key.tab, shift := false, focusable := [7, 8], active := 8 } 7 (by decide)

/-- Claim C8: an error on the open stream connection closes it and
schedules exactly one reconnect with the fixed 1500 ms delay, whatever the
history (no retry cap); a pending timer firing reopens the connection; and
every reconnect delay ever scheduled in any run equals 1500 ms (no backoff
growth). -/
theorem sse_error_reconnect_fixed_delay :
    (∀ s : SSEState, s.connOpen = true →
      sseStep s SSEEvent.errorEvt =
        { connOpen := false, pending := some 1500, scheduled := s.scheduled ++ [1500] })
    ∧ (∀ (s : SSEState) (d : Nat), s.pending = some d →
      sseStep s SSEEvent.timerFires = { s with pending := none, connOpen := true })
    ∧ (∀ evs : List SSEEvent, ∀ d ∈ (sseRun evs).scheduled, d = 1500) := by
  refine ⟨?_, ?_, ?_⟩
  · intro s h
    simp [sseStep, h]
  · intro s d h
    simp [sseStep, h]
  · intro evs
    exact sseRun_scheduled_go evs sseInit (by simp [sseInit])

/-- Claim C8 witness: from startup, one error schedules the single 1500 ms
reconnect, the timer firing reopens the connection, and the delay recorded
for the run consisting of one error is 1500. -/
theorem sse_error_reconnect_fixed_delay_witness :
    (sseStep sseInit SSEEvent.errorEvt =
      { connOpen := false, pending := some 1500, scheduled := sseInit.scheduled ++ [1500] })
    ∧ (sseStep { connOpen := false, pending := some 1500, scheduled := [1500] }
        SSEEvent.timerFires = { connOpen := true, pending := none, scheduled := [1500] })
    ∧ (1500 : Nat) = 1500 :=
  by
  refine ⟨?_, ?_, ?_⟩
  · exact sse_error_reconnect_fixed_delay.1 sseInit rfl
  · simpa using sse_error_reconnect_fixed_delay.2.1
      ({ connOpen := false, pending := some 1500, scheduled := [1500] } : SSEState) 1500 rfl
  · exact sse_error_reconnect_fixed_delay.2.2 [SSEEvent.errorEvt] 1500 (by decide)

/-- Claim C4: session persistence is single-flight — a `persistWallet`
call that finds the saving flag set performs no POST and no state change
(skipped, not queued), and in the interleaving model of persist calls the
number of POSTs in flight never exceeds one, whatever finite sequence of
call and settle events occurs. -/
theorem persistWallet_single_flight :
    (∀ (st : WalletState) (fetchOk : Bool), st.saving = true →
      persistWallet st fetchOk = (st, []))
    ∧ (∀ evs : List PersistEvent, (persistRun evs).inFlightPosts ≤ 1) := by
  constructor
  · intro st fetchOk h
    simp [persistWallet, h]
  · intro evs
    have h := persistRun_invariant evs persistInit (by simp [persistInit])
    have h2 : (persistRun evs).inFlightPosts =
        if (persistRun evs).saving then 1 else 0 := h
    rw [h2]
    split <;> simp

/-- Claim C4 witness: a call with the guard already set returns the state
unchanged and emits no POST event. -/
theorem persistWallet_single_flight_witness :
    persistWallet
        { saving := true, walletAddress := none, provider := none, signer := none } true
      = ({ saving := true, walletAddress := none, provider := none, signer := none }, []) :=
  persistWallet_single_flight.1
    { saving := true, walletAddress := none, provider := none, signer := none } true rfl

/-- Claim C9: a `persistWallet` call that enters the body (guard clear at
entry) ends with the saving flag false whether the POST succeeded or
threw — the finally block always releases the single-flight guard. -/
theorem persistWallet_releases_guard :
    ∀ (st : WalletState) (fetchOk : Bool), st.saving = false →
      ((persistWallet st fetchOk).1).saving = false := by
  intro st fetchOk h
  cases fetchOk <;> simp [persistWallet, h]

/-- Claim C9 witness: after a persist whose POST throws, the guard is
released. -/
theorem persistWallet_releases_guard_witness :
    ((persistWallet freshWallet false).1).saving = false :=
  persistWallet_releases_guard freshWallet false rfl

/-- Claim C5: a disconnect click clears the address, provider and signer
module variables and ends in the disconnected rendering — button text
Connect wallet, label Not connected, connect handler bound — whether the
DELETE to /authz/session succeeds or fails. -/
theorem handleDisconnect_always_disconnects :
    ∀ (st : WalletState) (ui : WalletUi) (deleteOk : Bool), ui.present = true →
      (handleDisconnectClick st ui deleteOk).1.walletAddress = none ∧
      (handleDisconnectClick st ui deleteOk).1.provider = none ∧
      (handleDisconnectClick st ui deleteOk).1.signer = none ∧
      (handleDisconnectClick st ui deleteOk).2.1.buttonText = "Connect wallet" ∧
      (handleDisconnectClick st ui deleteOk).2.1.addressText = "Not connected" ∧
      (handleDisconnectClick st ui deleteOk).2.1.addressState = "disconnected" ∧
      (handleDisconnectClick st ui deleteOk).2.1.handler = BoundHandler.connectH := by
  intro st ui deleteOk h
  refine ⟨rfl, rfl, rfl, ?_, ?_, ?_, ?_⟩ <;>
    simp [handleDisconnectClick, renderDisconnectedState, h]

/-- Claim C5 witness: disconnecting from a connected state with a failing
DELETE still clears the module state and renders Not connected. -/
theorem handleDisconnect_always_disconnects_witness :
    (handleDisconnectClick connectedWallet connectedUi false).1.walletAddress = none ∧
    (handleDisconnectClick connectedWallet connectedUi false).1.provider = none ∧
    (handleDisconnectClick connectedWallet connectedUi false).1.signer = none ∧
    (handleDisconnectClick connectedWallet connectedUi false).2.1.buttonText = "Connect wallet" ∧
    (handleDisconnectClick connectedWallet connectedUi false).2.1.addressText = "Not connected" ∧
    (handleDisconnectClick connectedWallet connectedUi false).2.1.addressState = "disconnected" ∧
    (handleDisconnectClick connectedWallet connectedUi false).2.1.handler = BoundHandler.connectH :=
  handleDisconnect_always_disconnects connectedWallet connectedUi false rfl

/-- Claim C1 counterexample: in a connect flow whose persist POST fails at
the transport, the run still invokes `renderConnectedState` — the trace
contains the connected render but no successfully completed POST, so the
connected UI is not gated on a confirmed persisted session. -/
theorem connect_renders_despite_failed_post :
    WEvent.renderConnected ∈
      (handleConnectClick failingPersistEnv freshWallet disconnectedUi).2.2 ∧
    ((handleConnectClick failingPersistEnv freshWallet disconnectedUi).2.2.contains
      WEvent.postOk) = false := by
  decide

/-- Claim C1 (amended): in every connect flow, `renderConnectedState` is
invoked only after the `persistWallet` call has settled — it is the last
event of the trace, it occurs exactly once, and everything before it is
precisely the completed persist attempt: nothing (skipped by the
single-flight guard), a completed POST, or a failed-and-logged POST. -/
theorem connect_renders_only_after_persist_settles :
    ∀ (env : ConnectEnv) (st : WalletState) (ui : WalletUi),
      WEvent.renderConnected ∈ (handleConnectClick env st ui).2.2 →
      ((handleConnectClick env st ui).2.2.getLast? = some WEvent.renderConnected ∧
       ((handleConnectClick env st ui).2.2.dropLast.contains WEvent.renderConnected) = false ∧
       ((handleConnectClick env st ui).2.2.dropLast = [] ∨
        (handleConnectClick env st ui).2.2.dropLast = [WEvent.postOk] ∨
        (handleConnectClick env st ui).2.2.dropLast =
          [WEvent.postFailed, WEvent.logPersistError])) := by
  intro env st ui h
  cases htc : tryConnect env with
  | error e =>
    rw [handleConnectClick_error_trace env st ui e htc] at h
    exact absurd h (by decide)
  | ok addr =>
    rw [handleConnectClick_ok_trace env st ui addr htc] at h ⊢
    rcases persistWallet_trace_shapes
        { st with walletAddress := some addr, provider := some (), signer := some () }
        env.persistFetchOk with hp | hp | hp <;>
      rw [hp] <;> exact ⟨by decide, by decide, by decide⟩

/-- Claim C1 (amended) witness: a successful connect flow renders the
connected state exactly once, as the final event, after the completed
POST. -/
theorem connect_renders_only_after_persist_settles_witness :
    (handleConnectClick okPersistEnv freshWallet disconnectedUi).2.2.getLast? =
      some WEvent.renderConnected ∧
    ((handleConnectClick okPersistEnv freshWallet disconnectedUi).2.2.dropLast = [] ∨
     (handleConnectClick okPersistEnv freshWallet disconnectedUi).2.2.dropLast =
       [WEvent.postOk] ∨
     (handleConnectClick okPersistEnv freshWallet disconnectedUi).2.2.dropLast =
       [WEvent.postFailed, WEvent.logPersistError]) :=
  ⟨(connect_renders_only_after_persist_settles okPersistEnv freshWallet disconnectedUi
      (by decide)).1,
   (connect_renders_only_after_persist_settles okPersistEnv freshWallet disconnectedUi
      (by decide)).2.2⟩

/-- Claim C2 (code bug): hydrating with a session whose address is
0xABCDEF1234567890 sets the button text to Disconnect, but the address
label is the first 6 characters, the three-character mojibake separator
of source line 191, and the last 4 characters — not the single ellipsis
character the specification states; an address shorter than 10 characters
is shown verbatim. -/
theorem hydration_renders_mojibake_separator :
    (hydrateFromServer
        (some { ok := true, data := some { address := "0xABCDEF1234567890" } })
        freshWallet disconnectedUi).2.buttonText = "Disconnect" ∧
    (hydrateFromServer
        (some { ok := true, data := some { address := "0xABCDEF1234567890" } })
        freshWallet disconnectedUi).2.addressText =
      "0xABCD" ++ walletSeparator ++ "7890" ∧
    ((hydrateFromServer
        (some { ok := true, data := some { address := "0xABCDEF1234567890" } })
        freshWallet disconnectedUi).2.addressText ==
      "0xABCD" ++ specEllipsis ++ "7890") = false ∧
    walletSeparator.length = 3 ∧ specEllipsis.length = 1 ∧
    shortAddress (some "0xABCDEF1") = "0xABCDEF1" := by
  decide

/-- Claim C3: two successive snapshots with the same run_id leave exactly
one row for that run_id, equal to the wholesale rendering of the second
snapshot; a snapshot whose run_id is not in the table removes the first
empty-state placeholder row and appends exactly one new row, and when the
table held at most one placeholder none remains afterwards. -/
theorem upsertRow_keyed_wholesale_replacement :
    (∀ (s1 s2 : Snapshot) (t : Table), s1.run_id = s2.run_id →
      t.rows.countP (rowHasId ("run-" ++ s1.run_id)) = 0 →
        ((upsertRow s2 (upsertRow s1 t)).rows.countP
            (rowHasId ("run-" ++ s2.run_id)) = 1 ∧
         (upsertRow s2 (upsertRow s1 t)).rows.filter
            (rowHasId ("run-" ++ s2.run_id)) = [Row.snap (renderRow s2)]))
    ∧ (∀ (s : Snapshot) (t : Table),
      t.rows.countP (rowHasId ("run-" ++ s.run_id)) = 0 →
        ((upsertRow s t).rows =
            removeFirstPlaceholder t.rows ++ [Row.snap (renderRow s)] ∧
         (t.rows.countP isPlaceholder ≤ 1 →
            (upsertRow s t).rows.countP isPlaceholder = 0))) := by
  constructor
  · intro s1 s2 t h12 h0
    have hkey : ("run-" ++ s1.run_id) = ("run-" ++ s2.run_id) := by rw [h12]
    have h1 : (upsertRow s1 t).rows.countP (rowHasId ("run-" ++ s2.run_id)) = 1 := by
      rw [← hkey]
      exact upsertRow_count_one s1 t h0
    have hany : (upsertRow s1 t).rows.any (rowHasId ("run-" ++ s2.run_id)) = true :=
      any_of_countP_pos _ _ (by omega)
    constructor
    · rw [upsertRow_present s2 _ hany,
        countP_replaceFirst _ _ (rowHasId_renderRow s2), h1]
    · rw [upsertRow_present s2 _ hany]
      exact filter_replaceFirst _ _ (rowHasId_renderRow s2) _ h1
  · intro s t h0
    refine ⟨upsertRow_not_present s t h0, ?_⟩
    intro hple
    rw [upsertRow_not_present s t h0, List.countP_append]
    rw [countP_placeholder_removeFirst t.rows hple]
    simp [List.countP_cons, isPlaceholder]

/-- Claim C3 witness: on a table holding only the placeholder row, two
snapshots of run r1 yield exactly one r1 row rendered from the second
snapshot; the first upsert removed the placeholder and appended one row,
leaving no placeholder. -/
theorem upsertRow_keyed_wholesale_replacement_witness :
    ((upsertRow snapB (upsertRow snapA placeholderTable)).rows.countP
        (rowHasId ("run-" ++ snapB.run_id)) = 1 ∧
     (upsertRow snapB (upsertRow snapA placeholderTable)).rows.filter
        (rowHasId ("run-" ++ snapB.run_id)) = [Row.snap (renderRow snapB)]) ∧
    ((upsertRow snapA placeholderTable).rows =
        removeFirstPlaceholder placeholderTable.rows ++ [Row.snap (renderRow snapA)] ∧
     (upsertRow snapA placeholderTable).rows.countP isPlaceholder = 0) :=
  ⟨upsertRow_keyed_wholesale_replacement.1 snapA snapB placeholderTable rfl (by decide),
   (upsertRow_keyed_wholesale_replacement.2 snapA placeholderTable (by decide)).1,
   (upsertRow_keyed_wholesale_replacement.2 snapA placeholderTable (by decide)).2
     (by decide)⟩

/-- Claim C10: a stream message that fails to parse, parses to a falsy or
field-less value, carries a false ok flag, or carries no data payload
leaves the monitoring table exactly unchanged — no row added, replaced or
removed. -/
theorem streamMessage_failure_leaves_table :
    ∀ (t : Table) (d : Option Snapshot),
      handleStreamMessage StreamParse.parseError t = t ∧
      handleStreamMessage StreamParse.nonObject t = t ∧
      handleStreamMessage (StreamParse.envelope false d) t = t ∧
      handleStreamMessage (StreamParse.envelope true none) t = t := by
  intro t d
  refine ⟨rfl, rfl, ?_, rfl⟩
  simp [handleStreamMessage]
